import Mathlib

/-
  Shallow embedding of the Blockchain AML risk-assessment system.

  Sources embedded here:
    - src/app.py: address heuristics, feature derivation inside api_predict,
      enhanced_fallback_prediction, calculate_risk_assessment.
    - src/ml_service/app.py: generate_synthetic_data and the predict endpoint
      (ensemble combination of the two sub-model votes and the result object).

  Python floats are modelled as rationals; Python dict results are modelled as
  association lists over a small value type so that the key structure of the
  JSON objects is part of the model.  Opaque library calls (the fitted sklearn
  models, numpy distribution sampling) are modelled as parameters or abstract
  draws from a seeded stream; everything the repository computes itself is
  translated directly.
-/

namespace AML

/-- A JSON-like value as produced by the Python handlers. -/
inductive PyVal where
  | num (q : ℚ)
  | int (n : ℤ)
  | str (s : String)
  | strList (l : List String)
  | obj (fields : List (String × PyVal))

/-- The keys of a dict, in construction order. -/
def keysOf (d : List (String × PyVal)) : List String := d.map Prod.fst

/-- Field lookup in a dict. -/
def lookupVal (d : List (String × PyVal)) (k : String) : Option PyVal :=
  List.lookup k d

/-- The fields of a nested dict-valued entry, or the empty dict when absent. -/
def subObj (d : List (String × PyVal)) (k : String) : List (String × PyVal) :=
  match List.lookup k d with
  | some (PyVal.obj fields) => fields
  | _ => []

/-- The per-sub-model breakdown dict stored under the models key. -/
def modelsObj (d : List (String × PyVal)) (name : String) : List (String × PyVal) :=
  subObj (subObj d ("models")) name

/-- Round a rational to the nearest integer, ties to even; this is the
documented behaviour of the Python builtin round. -/
def roundHalfEven (q : ℚ) : ℤ :=
  if q - ⌊q⌋ < 1/2 then ⌊q⌋
  else if 1/2 < q - ⌊q⌋ then ⌊q⌋ + 1
  else if ⌊q⌋ % 2 = 0 then ⌊q⌋ else ⌊q⌋ + 1

/-- Python round(x, 3): round to three decimal places. -/
def pyRound3 (q : ℚ) : ℚ := (roundHalfEven (q * 1000) : ℚ) / 1000

/-! ## Address heuristics (src/app.py, calculate_address_risk) -/

/-- calculate_address_risk from src/app.py, on the address as a character
list.  An empty address scores 0.5; otherwise 0.3 is added when the lowercased
address starts with 0x000, 0.2 when the characters after the two-character
prefix have fewer than 10 distinct values, and the result is capped at 1. -/
def calculate_address_risk (address : List Char) : ℚ :=
  if address = [] then 1/2
  else
    let risk : ℚ := 0
    let risk :=
      if (String.toList ("0x000")).isPrefixOf (address.map Char.toLower)
      then risk + 3/10 else risk
    let risk :=
      if (address.drop 2).dedup.length < 10
      then risk + 2/10 else risk
    min risk 1

/-! ## Feature inputs (the ml_data dict built in api_predict) -/

/-- The ten feature values sent to the prediction path. -/
structure MLData where
  amount : ℚ
  frequency_24h : ℚ
  unique_counterparties : ℚ
  hour_of_day : ℚ
  gas_price : ℚ
  is_contract : Bool
  account_age_days : ℚ
  balance : ℚ
  token_type_numeric : ℚ
  high_gas_fee : ℚ

/-- gas_fee_wei from api_predict: gas_limit * (gas_price_gwei * 10^9). -/
def gas_fee_wei (gas_limit gas_price_gwei : ℚ) : ℚ :=
  gas_limit * (gas_price_gwei * 10 ^ 9)

/-- gas_fee_eth from api_predict: gas_fee_wei / 10^18. -/
def gas_fee_eth (gas_limit gas_price_gwei : ℚ) : ℚ :=
  gas_fee_wei gas_limit gas_price_gwei / 10 ^ 18

/-- The high_gas_fee feature computed in api_predict:
1 if gas_fee_eth > 0.01 else 0. -/
def api_predict_high_gas_fee (gas_limit gas_price_gwei : ℚ) : ℚ :=
  if 1/100 < gas_fee_eth gas_limit gas_price_gwei then 1 else 0

/-- The ml_data dict assembled in api_predict from the request fields and the
address analysis of the receiver. -/
def api_predict_ml_data (amount frequency_24h unique_counterparties
    hour_of_day gas_price_gwei : ℚ) (receiver_is_contract : Bool)
    (account_age_days balance : ℚ) (token_is_eth : Bool)
    (gas_limit : ℚ) : MLData :=
  { amount := amount
    frequency_24h := frequency_24h
    unique_counterparties := unique_counterparties
    hour_of_day := hour_of_day
    gas_price := gas_price_gwei
    is_contract := receiver_is_contract
    account_age_days := account_age_days
    balance := balance
    token_type_numeric := if token_is_eth then 0 else 1
    high_gas_fee := api_predict_high_gas_fee gas_limit gas_price_gwei }

/-! ## Fallback predictor (src/app.py, enhanced_fallback_prediction) -/

/-- The weighted risk-factor count of the fallback predictor. -/
def risk_factors_count (d : MLData) : ℚ :=
  (if 10000 < d.amount then 1 else 0)
  + (if d.hour_of_day < 6 ∨ 22 < d.hour_of_day then 1 else 0)
  + (if 10 < d.frequency_24h then 1 else 0)
  + (if 100 < d.gas_price then 1 else 0)
  + (if d.is_contract then 1/2 else 0)

/-- The triggered risk-reason strings of the fallback predictor, in the order
they are appended. -/
def fallback_risk_reasons (d : MLData) : List String :=
  (if 10000 < d.amount then ["High transaction amount"] else [])
  ++ (if d.hour_of_day < 6 ∨ 22 < d.hour_of_day
      then ["Unusual transaction time"] else [])
  ++ (if 10 < d.frequency_24h then ["High transaction frequency"] else [])
  ++ (if 100 < d.gas_price then ["Unusually high gas price"] else [])
  ++ (if d.is_contract then ["Interacting with smart contract"] else [])

/-- The raw confidence value 0.7 + min(risk_factors, 3) * 0.1 before capping. -/
def fallback_confidence_raw (d : MLData) : ℚ :=
  7/10 + min (risk_factors_count d) 3 * (1/10)

/-- The reported fallback confidence, capped at 0.95. -/
def fallback_confidence (d : MLData) : ℚ :=
  min (fallback_confidence_raw d) (95/100)

/-- The fallback risk score min(risk_factors / 4.0, 1.0). -/
def fallback_risk_score (d : MLData) : ℚ :=
  min (risk_factors_count d / 4) 1

/-- The top-level fallback prediction: 1 if risk_factors >= 2 else 0. -/
def fallback_top_prediction (d : MLData) : ℤ :=
  if 2 ≤ risk_factors_count d then 1 else 0

/-- The synthesized random_forest prediction of the fallback result, which the
source writes with the same expression as the top-level prediction. -/
def fallback_rf_prediction (d : MLData) : ℤ :=
  if 2 ≤ risk_factors_count d then 1 else 0

/-- The synthesized isolation_forest prediction of the fallback result:
1 if risk_factors > 1.5 else 0. -/
def fallback_iso_prediction (d : MLData) : ℤ :=
  if 3/2 < risk_factors_count d then 1 else 0

/-- The full result dict of enhanced_fallback_prediction; the timestamp is a
parameter standing for datetime.now().isoformat(). -/
def enhanced_fallback_prediction (d : MLData) (ts : String) :
    List (String × PyVal) :=
  [("prediction", PyVal.int (fallback_top_prediction d)),
   ("confidence", PyVal.num (fallback_confidence d)),
   ("risk_score", PyVal.num (fallback_risk_score d)),
   ("risk_factors", PyVal.strList (fallback_risk_reasons d)),
   ("source", PyVal.str ("enhanced_fallback_model")),
   ("models", PyVal.obj
     [("random_forest", PyVal.obj
        [("prediction", PyVal.int (fallback_rf_prediction d)),
         ("confidence", PyVal.num (fallback_confidence_raw d))]),
      ("isolation_forest", PyVal.obj
        [("prediction", PyVal.int (fallback_iso_prediction d)),
         ("anomaly_score", PyVal.num (fallback_risk_score d))])]),
   ("timestamp", PyVal.str ts)]

/-! ## Ensemble inference (src/ml_service/app.py, predict) -/

/-- Outputs of the two opaque fitted sklearn models on one scaled feature
vector: the classifier vote and class probabilities, and the raw isolation
forest output, which is -1 for an outlier and 1 otherwise. -/
structure ModelOutputs where
  rf_pred : ℕ
  proba_normal : ℚ
  proba_illicit : ℚ
  iso_raw : ℤ

/-- iso_pred_binary from predict: 1 if the raw detector output is -1 else 0. -/
def iso_pred_binary (iso : ℤ) : ℕ := if iso = -1 then 1 else 0

/-- The ensemble combination in predict:
1 if (rf_pred + iso_pred_binary) >= 1 else 0. -/
def ensemble_pred (rf iso_binary : ℕ) : ℕ :=
  if 1 ≤ rf + iso_binary then 1 else 0

/-- The explainability risk-factor strings of the predict endpoint. -/
def ml_service_risk_factors (d : MLData) : List String :=
  (if 10000 < d.amount then ["High transaction amount"] else [])
  ++ (if d.hour_of_day < 6 ∨ 22 < d.hour_of_day
      then ["Unusual transaction time"] else [])
  ++ (if 10 < d.frequency_24h then ["High transaction frequency"] else [])
  ++ (if 50 < d.gas_price then ["Unusually high gas price"] else [])
  ++ (if d.is_contract then ["Smart contract interaction"] else [])

/-- The result dict of the predict endpoint of the ML service, given the
outputs of the opaque fitted models; the timestamp is a parameter. -/
def ml_service_predict (d : MLData) (m : ModelOutputs) (ts : String) :
    List (String × PyVal) :=
  [("prediction", PyVal.int (ensemble_pred m.rf_pred (iso_pred_binary m.iso_raw))),
   ("confidence", PyVal.num (max m.proba_normal m.proba_illicit)),
   ("risk_score", PyVal.num m.proba_illicit),
   ("risk_factors", PyVal.strList (ml_service_risk_factors d)),
   ("models", PyVal.obj
     [("random_forest", PyVal.obj
        [("prediction", PyVal.int m.rf_pred),
         ("confidence", PyVal.num (max m.proba_normal m.proba_illicit)),
         ("probabilities", PyVal.obj
           [("normal", PyVal.num m.proba_normal),
            ("illicit", PyVal.num m.proba_illicit)])]),
      ("isolation_forest", PyVal.obj
        [("prediction", PyVal.int (iso_pred_binary m.iso_raw)),
         ("anomaly_score", PyVal.num |m.iso_raw|)])]),
   ("timestamp", PyVal.str ts),
   ("source", PyVal.str ("ml_service"))]

/-- The ml_prediction value obtained in api_predict: the ML service response
when the HTTP call succeeds, and the local fallback result when the call
raises (connection error or timeout).  The service response, when present, is
the predict result for the model outputs and service-side timestamp. -/
def api_predict_ml_result (service : Option (ModelOutputs × String))
    (d : MLData) (ts : String) : List (String × PyVal) :=
  match service with
  | some (m, ts2) => ml_service_predict d m ts2
  | none => enhanced_fallback_prediction d ts

/-! ## Risk aggregation (src/app.py, calculate_risk_assessment) -/

/-- The additive gas-risk term: 0.1 when gas_fee_eth exceeds 0.01, else 0. -/
def gas_risk_of (fee_eth : ℚ) : ℚ := if 1/100 < fee_eth then 1/10 else 0

/-- The overall risk before rounding:
min(base_risk + address_risk * 0.3 + gas_risk, 1.0) with
address_risk the mean of the two address scores. -/
def overall_risk_raw (base_risk sender_risk receiver_risk fee_eth : ℚ) : ℚ :=
  min (base_risk + ((sender_risk + receiver_risk) / 2) * (3/10)
        + gas_risk_of fee_eth) 1

/-- The aggregated risk assessment record. -/
structure RiskAssessment where
  overall_risk_score : ℚ
  risk_level : String
  ml_risk : ℚ
  address_risk : ℚ
  gas_risk : ℚ

/-- calculate_risk_assessment from src/app.py: the reported score is the
overall risk rounded to three decimals, while the level thresholds are applied
to the unrounded overall risk. -/
def calculate_risk_assessment (base_risk sender_risk receiver_risk
    fee_eth : ℚ) : RiskAssessment :=
  let address_risk := (sender_risk + receiver_risk) / 2
  let g := gas_risk_of fee_eth
  let overall_risk := min (base_risk + address_risk * (3/10) + g) 1
  { overall_risk_score := pyRound3 overall_risk
    risk_level :=
      if 7/10 < overall_risk then "HIGH"
      else if 4/10 < overall_risk then "MEDIUM"
      else "LOW"
    ml_risk := base_risk
    address_risk := address_risk
    gas_risk := g }

/-! ## Synthetic data generation (src/ml_service/app.py) -/

/-- The state of the numpy global random generator: the last seed set and the
position in the value stream drawn since that seed. -/
structure NPRandomState where
  seed : ℕ
  pos : ℕ
deriving DecidableEq

/-- An abstract model of the seeded pseudo-random value stream: the value
produced by the k-th sampling call after seeding with s.  The distribution
shapes of the source (lognormal, poisson, gamma, ...) are opaque library
calls, so each sampling call is one abstract draw. -/
abbrev DrawStream := ℕ → ℕ → ℚ

/-- One sampling call against the global generator state. -/
def np_draw (mt : DrawStream) (g : NPRandomState) : ℚ × NPRandomState :=
  (mt g.seed g.pos, ⟨g.seed, g.pos + 1⟩)

/-- np.random.seed: resets the global stream, discarding the prior state. -/
def np_random_seed (s : ℕ) (_g : NPRandomState) : NPRandomState := ⟨s, 0⟩

/-- A two-way np.random.choice between two already evaluated values, consuming
one abstract draw to select. -/
def np_choice2 (mt : DrawStream) (g : NPRandomState) (a b : ℚ) :
    ℚ × NPRandomState :=
  let (c, g2) := np_draw mt g
  (if c < 1/2 then a else b, g2)

/-- A three-way np.random.choice between already evaluated values. -/
def np_choice3 (mt : DrawStream) (g : NPRandomState) (a b c : ℚ) :
    ℚ × NPRandomState :=
  let (s, g2) := np_draw mt g
  (if s < 1/3 then a else if s < 2/3 then b else c, g2)

/-- One labelled row of the generated feature table. -/
structure TxRow where
  amount : ℚ
  frequency_24h : ℚ
  unique_counterparties : ℚ
  hour_of_day : ℚ
  gas_price : ℚ
  is_contract : ℚ
  account_age_days : ℚ
  balance : ℚ
  token_type_numeric : ℚ
  high_gas_fee : ℚ
  label : ℕ
deriving DecidableEq

/-- One normal-class row: nine sampling calls, then the high_gas_fee flag is
overwritten with 1 if gas_price > 50 else 0, label 0. -/
def normal_row (mt : DrawStream) (g0 : NPRandomState) : TxRow × NPRandomState :=
  let (amount, g1) := np_draw mt g0
  let (freq, g2) := np_draw mt g1
  let (uniq, g3) := np_draw mt g2
  let (hour, g4) := np_draw mt g3
  let (gp, g5) := np_draw mt g4
  let (ic, g6) := np_draw mt g5
  let (age, g7) := np_draw mt g6
  let (bal, g8) := np_draw mt g7
  let (tok, g9) := np_draw mt g8
  ({ amount := amount
     frequency_24h := freq
     unique_counterparties := uniq
     hour_of_day := hour
     gas_price := gp
     is_contract := ic
     account_age_days := age
     balance := bal
     token_type_numeric := tok
     high_gas_fee := if 50 < gp then 1 else 0
     label := 0 }, g9)

/-- One illicit-class row: each feature mixes sub-patterns through
np.random.choice over evaluated draws, then the high_gas_fee flag is
overwritten with 1 if gas_price > 50 else 0, label 1. -/
def illicit_row (mt : DrawStream) (g0 : NPRandomState) :
    TxRow × NPRandomState :=
  let (a1, g1) := np_draw mt g0
  let (a2, g2) := np_draw mt g1
  let (amount, g3) := np_choice2 mt g2 a1 a2
  let (f1, g4) := np_draw mt g3
  let (freq, g5) := np_choice2 mt g4 f1 1
  let (u1, g6) := np_draw mt g5
  let (uniq, g7) := np_choice2 mt g6 1 u1
  let (h1, g8) := np_draw mt g7
  let (h2, g9) := np_draw mt g8
  let (h3, g10) := np_draw mt g9
  let (hour, g11) := np_choice3 mt g10 h1 h2 h3
  let (gp1, g12) := np_draw mt g11
  let (gp2, g13) := np_draw mt g12
  let (gp, g14) := np_choice2 mt g13 gp1 gp2
  let (ic, g15) := np_draw mt g14
  let (ag1, g16) := np_draw mt g15
  let (ag2, g17) := np_draw mt g16
  let (age, g18) := np_choice2 mt g17 ag1 ag2
  let (b1, g19) := np_draw mt g18
  let (b2, g20) := np_draw mt g19
  let (bal, g21) := np_choice2 mt g20 b1 b2
  let (tok, g22) := np_draw mt g21
  ({ amount := amount
     frequency_24h := freq
     unique_counterparties := uniq
     hour_of_day := hour
     gas_price := gp
     is_contract := ic
     account_age_days := age
     balance := bal
     token_type_numeric := tok
     high_gas_fee := if 50 < gp then 1 else 0
     label := 1 }, g22)

/-- Iterate a row generator n times, threading the generator state. -/
def gen_rows (rowFn : NPRandomState → TxRow × NPRandomState) :
    ℕ → NPRandomState → List TxRow × NPRandomState
  | 0, g => ([], g)
  | n + 1, g =>
      let p := gen_rows rowFn n (rowFn g).2
      ((rowFn g).1 :: p.1, p.2)

/-- The vectorized noise pass on the amount column: each row receives one
draw d and amount becomes amount + amount * 0.01 * d, modelling
np.random.normal(0, amount * 0.01) through the scaling property of the normal
distribution. -/
def add_amount_noise (mt : DrawStream) :
    List TxRow → NPRandomState → List TxRow × NPRandomState
  | [], g => ([], g)
  | r :: rs, g =>
      let p := add_amount_noise mt rs (np_draw mt g).2
      ({ r with amount := r.amount + r.amount * (1/100) * (np_draw mt g).1 }
        :: p.1, p.2)

/-- The vectorized noise pass on the balance column. -/
def add_balance_noise (mt : DrawStream) :
    List TxRow → NPRandomState → List TxRow × NPRandomState
  | [], g => ([], g)
  | r :: rs, g =>
      let p := add_balance_noise mt rs (np_draw mt g).2
      ({ r with balance := r.balance + r.balance * (1/100) * (np_draw mt g).1 }
        :: p.1, p.2)

/-- generate_synthetic_data from src/ml_service/app.py: seed the global
generator with 42, generate int(n * 0.85) normal rows then the remaining
illicit rows, and add the proportional noise to amount and balance. -/
def generate_synthetic_data (mt : DrawStream) (g : NPRandomState)
    (n_samples : ℕ) : List TxRow × NPRandomState :=
  let g0 := np_random_seed 42 g
  let normal_samples := n_samples * 85 / 100
  let illicit_samples := n_samples - normal_samples
  let p1 := gen_rows (normal_row mt) normal_samples g0
  let p2 := gen_rows (illicit_row mt) illicit_samples p1.2
  let p3 := add_amount_noise mt (p1.1 ++ p2.1) p2.2
  add_balance_noise mt p3.1 p3.2

/-! ## Concrete example inputs used by the testable properties -/

/-- The high-risk scenario of the spec: amount 50000, frequency 25, gas price
300, hour 4, contract interaction. -/
def exampleHighRiskData : MLData :=
  { amount := 50000
    frequency_24h := 25
    unique_counterparties := 3
    hour_of_day := 4
    gas_price := 300
    is_contract := true
    account_age_days := 365
    balance := 10000
    token_type_numeric := 0
    high_gas_fee := 0 }

/-- The zero-prefixed low-entropy address of the spec. -/
def exampleLowEntropyAddress : List Char :=
  String.toList ("0x0000000000000000000000000000000000000a")

/-- The first row produced by the generator on the all-zero draw stream with
one sample, used as a concrete generated row. -/
def exampleGeneratedRow : TxRow :=
  ((generate_synthetic_data (fun _ _ => 0) ⟨0, 0⟩ 1).1.head?).getD
    ⟨0, 0, 0, 0, 0, 0, 0, 0, 0, 0, 0⟩

/-! ## Helper lemmas -/

theorem roundHalfEven_nonneg (q : ℚ) (h : 0 ≤ q) : 0 ≤ roundHalfEven q := by
  have hf : (0 : ℤ) ≤ ⌊q⌋ := Int.floor_nonneg.mpr h
  unfold roundHalfEven
  split_ifs <;> omega

theorem roundHalfEven_le_of_le (q : ℚ) (n : ℤ) (h : q ≤ (n : ℚ)) :
    roundHalfEven q ≤ n := by
  have hf : ⌊q⌋ ≤ n := by
    have h2 := Int.floor_mono h
    simpa using h2
  unfold roundHalfEven
  split_ifs with h1 h2 h3
  · exact hf
  · have hlt : (⌊q⌋ : ℚ) < q := by linarith
    have hfn : ⌊q⌋ < n := by
      have h4 : (⌊q⌋ : ℚ) < (n : ℚ) := lt_of_lt_of_le hlt h
      exact_mod_cast h4
    omega
  · exact hf
  · have hlt : (⌊q⌋ : ℚ) < q := by linarith
    have hfn : ⌊q⌋ < n := by
      have h4 : (⌊q⌋ : ℚ) < (n : ℚ) := lt_of_lt_of_le hlt h
      exact_mod_cast h4
    omega

theorem pyRound3_nonneg (q : ℚ) (h : 0 ≤ q) : 0 ≤ pyRound3 q := by
  unfold pyRound3
  have h1 : (0 : ℤ) ≤ roundHalfEven (q * 1000) :=
    roundHalfEven_nonneg _ (by linarith)
  have h2 : (0 : ℚ) ≤ (roundHalfEven (q * 1000) : ℚ) := by exact_mod_cast h1
  positivity

theorem pyRound3_le_one (q : ℚ) (h : q ≤ 1) : pyRound3 q ≤ 1 := by
  unfold pyRound3
  have h1 : roundHalfEven (q * 1000) ≤ 1000 := by
    apply roundHalfEven_le_of_le
    push_cast
    linarith
  have h2 : (roundHalfEven (q * 1000) : ℚ) ≤ 1000 := by exact_mod_cast h1
  linarith

/-! ## Claim theorems -/

/-- C2: at ensemble inference time the binary prediction is 1 exactly when the
sum of the classifier vote and the binary outlier vote is at least 1; for
binary classifier votes this is a strict OR of the two sub-model votes, so an
anomaly flag alone (raw detector output -1) yields an illicit verdict even
when the classifier predicts 0. -/
theorem ensemble_vote_is_strict_or (rf : ℕ) (hrf : rf ≤ 1) (iso : ℤ) :
    (ensemble_pred rf (iso_pred_binary iso) = 1
      ↔ 1 ≤ rf + iso_pred_binary iso)
    ∧ (ensemble_pred rf (iso_pred_binary iso) = 1 ↔ (rf = 1 ∨ iso = -1))
    ∧ ensemble_pred 0 (iso_pred_binary (-1)) = 1 := by
  have hcases : rf = 0 ∨ rf = 1 := by omega
  unfold ensemble_pred iso_pred_binary
  rcases hcases with h | h <;> subst h <;>
    by_cases hiso : iso = -1 <;> simp [hiso]

/-- Witness for C2 at the concrete input rf = 1, iso = 5. -/
theorem ensemble_vote_is_strict_or_witness :
    (1 : ℕ) ≤ 1
    ∧ (ensemble_pred 1 (iso_pred_binary 5) = 1
        ↔ ((1 : ℕ) = 1 ∨ (5 : ℤ) = -1)) :=
  ⟨le_refl 1, (ensemble_vote_is_strict_or 1 (le_refl 1) 5).2.1⟩

/-- C3: the fallback predictor counts +1 for amount over 10000, +1 for hour
outside the 6..22 band, +1 for frequency over 10, +1 for gas price over 100
and +0.5 for a contract interaction; its verdict is illicit exactly when the
count reaches 2, its confidence is min(0.7 + 0.1 * min(count, 3), 0.95) and
its risk score is min(count / 4, 1).  On the high-risk example the count is at
least 3, the verdict is illicit and the confidence is capped at 0.95. -/
theorem fallback_predictor_formulas (d : MLData) :
    (fallback_top_prediction d = 1 ↔ 2 ≤ risk_factors_count d)
    ∧ fallback_confidence d
        = min (7/10 + (1/10) * min (risk_factors_count d) 3) (95/100)
    ∧ fallback_risk_score d = min (risk_factors_count d / 4) 1
    ∧ 3 ≤ risk_factors_count exampleHighRiskData
    ∧ fallback_top_prediction exampleHighRiskData = 1
    ∧ fallback_confidence exampleHighRiskData = 95/100 := by
  refine ⟨?_, ?_, rfl,
    by norm_num [risk_factors_count, exampleHighRiskData],
    by norm_num [fallback_top_prediction, risk_factors_count,
      exampleHighRiskData],
    by norm_num [fallback_confidence, fallback_confidence_raw,
      risk_factors_count, exampleHighRiskData, min_def]⟩
  · unfold fallback_top_prediction
    split_ifs with h <;> simp [h]
  · unfold fallback_confidence fallback_confidence_raw
    rw [mul_comm]

/-- C10: the synthesized per-sub-model breakdown of the fallback result agrees
with its top-level verdict: the random_forest entry repeats the top-level
prediction, and the isolation_forest entry, thresholded at count > 1.5, also
equals the top-level verdict, thresholded at count >= 2, because the count
only takes multiples of 0.5. -/
theorem fallback_breakdown_consistent (d : MLData) :
    fallback_rf_prediction d = fallback_top_prediction d
    ∧ fallback_iso_prediction d = fallback_top_prediction d := by
  refine ⟨rfl, ?_⟩
  unfold fallback_iso_prediction fallback_top_prediction risk_factors_count
  by_cases h1 : 10000 < d.amount <;>
    by_cases h2 : d.hour_of_day < 6 ∨ 22 < d.hour_of_day <;>
    by_cases h3 : 10 < d.frequency_24h <;>
    by_cases h4 : 100 < d.gas_price <;>
    by_cases h5 : d.is_contract = true <;>
    simp [h1, h2, h3, h4, h5] <;> norm_num

/-- C4 counterexample: with gas_limit 21000 and gas_price 60 the gas price
exceeds 50, yet the extracted high_gas_fee feature is 0, because the source
thresholds gas_fee_eth at 0.01 rather than the gas price at 50. -/
theorem high_gas_fee_counterexample :
    (api_predict_ml_data 1000 5 3 12 60 false 365 10000 true
        21000).high_gas_fee = 0
    ∧ (50 : ℚ) < 60
    ∧ ¬((api_predict_ml_data 1000 5 3 12 60 false 365 10000 true
          21000).high_gas_fee = 1 ↔ (50 : ℚ) < 60) := by
  have h : (api_predict_ml_data 1000 5 3 12 60 false 365 10000 true
      21000).high_gas_fee = 0 := by
    norm_num [api_predict_ml_data, api_predict_high_gas_fee, gas_fee_eth,
      gas_fee_wei]
  refine ⟨h, by norm_num, ?_⟩
  rw [h]
  norm_num

/-- C4 amended: the high_gas_fee feature built in api_predict is 1 exactly
when gas_fee_eth, that is gas_limit times the gas price converted to ETH,
exceeds 0.01; it does not threshold the gas price itself. -/
theorem high_gas_fee_feature_threshold (amount frequency_24h
    unique_counterparties hour_of_day gas_price_gwei : ℚ)
    (receiver_is_contract : Bool) (account_age_days balance : ℚ)
    (token_is_eth : Bool) (gas_limit : ℚ) :
    (api_predict_ml_data amount frequency_24h unique_counterparties
        hour_of_day gas_price_gwei receiver_is_contract account_age_days
        balance token_is_eth gas_limit).high_gas_fee
      = api_predict_high_gas_fee gas_limit gas_price_gwei
    ∧ ((api_predict_ml_data amount frequency_24h unique_counterparties
          hour_of_day gas_price_gwei receiver_is_contract account_age_days
          balance token_is_eth gas_limit).high_gas_fee = 1
        ↔ 1/100 < gas_fee_eth gas_limit gas_price_gwei) := by
  refine ⟨rfl, ?_⟩
  show api_predict_high_gas_fee gas_limit gas_price_gwei = 1
    ↔ 1/100 < gas_fee_eth gas_limit gas_price_gwei
  unfold api_predict_high_gas_fee
  split_ifs with h
  · exact ⟨fun _ => h, fun _ => rfl⟩
  · exact ⟨fun h0 => absurd h0 (by norm_num), fun hc => absurd hc h⟩

/-- Helper: the sequential accumulation in calculate_address_risk equals the
sum-of-bonuses form. -/
theorem calculate_address_risk_eq (address : List Char) :
    calculate_address_risk address
      = (if address = [] then 1/2
         else min
           ((if (String.toList ("0x000")).isPrefixOf
                (address.map Char.toLower) then (3 : ℚ)/10 else 0)
            + (if (address.drop 2).dedup.length < 10 then (2 : ℚ)/10 else 0))
           1) := by
  unfold calculate_address_risk
  split_ifs <;> norm_num

/-- C9: the address risk function is total: an empty address scores exactly
0.5; otherwise the score is the sum of 0.3 for a lowercased 0x000 prefix and
0.2 for fewer than 10 distinct characters after the two-character prefix,
capped at 1; the result is always between 0 and 1, and the zero-prefixed
low-entropy example address scores at least 0.3. -/
theorem calculate_address_risk_total (address : List Char) :
    calculate_address_risk address
      = (if address = [] then 1/2
         else min
           ((if (String.toList ("0x000")).isPrefixOf
                (address.map Char.toLower) then (3 : ℚ)/10 else 0)
            + (if (address.drop 2).dedup.length < 10 then (2 : ℚ)/10 else 0))
           1)
    ∧ 0 ≤ calculate_address_risk address
    ∧ calculate_address_risk address ≤ 1
    ∧ 3/10 ≤ calculate_address_risk exampleLowEntropyAddress := by
  have hex : 3/10 ≤ calculate_address_risk exampleLowEntropyAddress := by
    rw [calculate_address_risk_eq]
    have h1 : exampleLowEntropyAddress ≠ [] := by decide
    have h2 : (String.toList ("0x000")).isPrefixOf
        (exampleLowEntropyAddress.map Char.toLower) = true := by decide
    have h3 : (exampleLowEntropyAddress.drop 2).dedup.length < 10 := by decide
    rw [if_neg h1, if_pos h2, if_pos h3]
    norm_num [min_def]
  refine ⟨calculate_address_risk_eq address, ?_, ?_, hex⟩
  · rw [calculate_address_risk_eq]
    split_ifs <;> norm_num [le_min_iff]
  · rw [calculate_address_risk_eq]
    split_ifs <;> norm_num [min_le_iff]

/-- C5: whatever the outcome of the ML service call, the prediction handler
returns a result object with a prediction field; the source tag is ml_service
exactly when the service responded, and enhanced_fallback_model exactly when
the call failed and the local fallback was used, so the caller never sees a
hard failure and can always tell the origin of the result. -/
theorem api_predict_recovers_with_fallback
    (service : Option (ModelOutputs × String)) (d : MLData) (ts : String) :
    (lookupVal (api_predict_ml_result service d ts) ("prediction")).isSome
    ∧ ((lookupVal (api_predict_ml_result service d ts) ("source")
        = some (PyVal.str ("ml_service"))) ↔ service.isSome)
    ∧ ((lookupVal (api_predict_ml_result service d ts) ("source")
        = some (PyVal.str ("enhanced_fallback_model")))
        ↔ service.isNone) := by
  rcases service with _ | ⟨m, ts2⟩ <;>
    simp [api_predict_ml_result, lookupVal, ml_service_predict,
      enhanced_fallback_prediction, List.lookup]

/-- C6 counterexample: the fallback result and the ensemble result do not have
identical field sets at every nesting level: on the high-risk example input
the random_forest breakdown of the fallback lacks the probabilities key that
the ensemble result carries. -/
theorem prediction_result_shape_counterexample :
    (keysOf (modelsObj
        (enhanced_fallback_prediction exampleHighRiskData ("t"))
        ("random_forest"))).toFinset
      ≠ (keysOf (modelsObj
          (ml_service_predict exampleHighRiskData
            ⟨1, 1/2, 1/2, 1⟩ ("t"))
          ("random_forest"))).toFinset := by
  have h1 : keysOf (modelsObj
      (enhanced_fallback_prediction exampleHighRiskData ("t"))
      ("random_forest")) = ["prediction", "confidence"] := rfl
  have h2 : keysOf (modelsObj
      (ml_service_predict exampleHighRiskData ⟨1, 1/2, 1/2, 1⟩ ("t"))
      ("random_forest")) = ["prediction", "confidence", "probabilities"] := rfl
  rw [h1, h2]
  decide

/-- C6 amended: for every feature input the two result objects have the same
top-level key set and the same isolation_forest breakdown keys, but the
fallback random_forest breakdown has exactly the keys prediction and
confidence while the ensemble one additionally carries the probabilities
object. -/
theorem prediction_result_shape_refined (d : MLData) (ts : String)
    (m : ModelOutputs) (ts2 : String) :
    (keysOf (enhanced_fallback_prediction d ts)).toFinset
      = (keysOf (ml_service_predict d m ts2)).toFinset
    ∧ keysOf (modelsObj (enhanced_fallback_prediction d ts)
        ("isolation_forest"))
      = keysOf (modelsObj (ml_service_predict d m ts2)
          ("isolation_forest"))
    ∧ keysOf (modelsObj (enhanced_fallback_prediction d ts)
        ("random_forest"))
      = ["prediction", "confidence"]
    ∧ keysOf (modelsObj (ml_service_predict d m ts2) ("random_forest"))
      = ["prediction", "confidence", "probabilities"] := by
  refine ⟨?_, rfl, rfl, rfl⟩
  have h1 : keysOf (enhanced_fallback_prediction d ts)
      = ["prediction", "confidence", "risk_score", "risk_factors",
         "source", "models", "timestamp"] := rfl
  have h2 : keysOf (ml_service_predict d m ts2)
      = ["prediction", "confidence", "risk_score", "risk_factors",
         "models", "timestamp", "source"] := rfl
  rw [h1, h2]
  decide

/-- C1 counterexample: with ml_risk 0.7004, both address scores 0 and zero
gas fee, the reported overall_risk_score rounds down to exactly 0.7 while the
risk level is HIGH, because the source applies the thresholds to the
unrounded overall risk; this refutes both the claimed HIGH iff
overall_risk_score > 0.7 equivalence and the claim that a score of exactly
0.7 yields MEDIUM. -/
theorem risk_level_rounding_counterexample :
    (calculate_risk_assessment (7004/10000) 0 0 0).overall_risk_score = 7/10
    ∧ (calculate_risk_assessment (7004/10000) 0 0 0).risk_level = "HIGH"
    ∧ ¬(((calculate_risk_assessment (7004/10000) 0 0 0).risk_level = "HIGH")
        ↔ 7/10 < (calculate_risk_assessment (7004/10000) 0 0 0).overall_risk_score) := by
  have hg : gas_risk_of 0 = 0 := by norm_num [gas_risk_of]
  have hu : min ((7004/10000 : ℚ) + (0 + 0)/2 * (3/10) + gas_risk_of 0) 1
      = 7004/10000 := by
    rw [hg]; norm_num [min_def]
  have hfloor : ⌊((7004:ℚ)/10000) * 1000⌋ = 700 := by
    rw [Int.floor_eq_iff] <;> norm_num
  have hrhe : roundHalfEven (((7004:ℚ)/10000) * 1000) = 700 := by
    unfold roundHalfEven
    rw [hfloor]
    norm_num
  have hscore : (calculate_risk_assessment (7004/10000) 0 0 0).overall_risk_score = 7/10 := by
    show pyRound3
        (min ((7004/10000 : ℚ) + (0 + 0)/2 * (3/10) + gas_risk_of 0) 1)
      = 7/10
    rw [hu]
    unfold pyRound3
    rw [hrhe]
    norm_num
  have hlevel : (calculate_risk_assessment (7004/10000) 0 0 0).risk_level
      = "HIGH" := by
    show (if (7:ℚ)/10
          < min ((7004/10000 : ℚ) + (0 + 0)/2 * (3/10) + gas_risk_of 0) 1
        then "HIGH"
        else if (4:ℚ)/10
            < min ((7004/10000 : ℚ) + (0 + 0)/2 * (3/10) + gas_risk_of 0) 1
          then "MEDIUM" else "LOW") = "HIGH"
    rw [hu]
    norm_num
  refine ⟨hscore, hlevel, ?_⟩
  rw [hscore, hlevel]
  intro hiff
  exact absurd (hiff.mp rfl) (by norm_num)

/-- C1 amended: for ml_risk and both address scores in the unit interval, the
reported overall_risk_score equals the aggregation formula rounded to three
decimals and lies in the unit interval, and the risk level is determined by
the thresholds 0.7 and 0.4 applied to the unrounded overall risk, with the
boundary values exclusive on the lower side: an unrounded overall risk of
exactly 0.7 yields MEDIUM and exactly 0.4 yields LOW. -/
theorem risk_assessment_thresholds (base sr rr fee : ℚ)
    (hb0 : 0 ≤ base) (hb1 : base ≤ 1) (hs0 : 0 ≤ sr) (hs1 : sr ≤ 1)
    (hr0 : 0 ≤ rr) (hr1 : rr ≤ 1) :
    (calculate_risk_assessment base sr rr fee).overall_risk_score
      = pyRound3 (overall_risk_raw base sr rr fee)
    ∧ 0 ≤ (calculate_risk_assessment base sr rr fee).overall_risk_score
    ∧ (calculate_risk_assessment base sr rr fee).overall_risk_score ≤ 1
    ∧ ((calculate_risk_assessment base sr rr fee).risk_level = "HIGH"
        ↔ 7/10 < overall_risk_raw base sr rr fee)
    ∧ ((calculate_risk_assessment base sr rr fee).risk_level = "MEDIUM"
        ↔ (4/10 < overall_risk_raw base sr rr fee
            ∧ overall_risk_raw base sr rr fee ≤ 7/10))
    ∧ ((calculate_risk_assessment base sr rr fee).risk_level = "LOW"
        ↔ overall_risk_raw base sr rr fee ≤ 4/10)
    ∧ (overall_risk_raw base sr rr fee = 7/10
        → (calculate_risk_assessment base sr rr fee).risk_level = "MEDIUM")
    ∧ (overall_risk_raw base sr rr fee = 4/10
        → (calculate_risk_assessment base sr rr fee).risk_level = "LOW") := by
  have hscore : (calculate_risk_assessment base sr rr fee).overall_risk_score
      = pyRound3 (overall_risk_raw base sr rr fee) := rfl
  have hlevel : (calculate_risk_assessment base sr rr fee).risk_level
      = (if 7/10 < overall_risk_raw base sr rr fee then "HIGH"
         else if 4/10 < overall_risk_raw base sr rr fee then "MEDIUM"
         else "LOW") := rfl
  have hprod : 0 ≤ (sr + rr)/2 * (3/10) := by
    apply mul_nonneg
    · linarith
    · norm_num
  have hu0 : 0 ≤ overall_risk_raw base sr rr fee := by
    unfold overall_risk_raw gas_risk_of
    split_ifs <;> rw [le_min_iff] <;> constructor <;>
      first | linarith | norm_num
  have hu1 : overall_risk_raw base sr rr fee ≤ 1 := min_le_right _ _
  refine ⟨hscore, ?_, ?_, ?_, ?_, ?_, ?_, ?_⟩
  · rw [hscore]; exact pyRound3_nonneg _ hu0
  · rw [hscore]; exact pyRound3_le_one _ hu1
  · rw [hlevel]
    split_ifs with h1 h2 <;> simp [h1]
  · rw [hlevel]
    split_ifs with h1 h2
    · exact ⟨fun hc => absurd hc (by decide),
        fun hc => absurd h1 (not_lt.mpr hc.2)⟩
    · simp [h2, not_lt.mp h1]
    · simp [h2]
  · rw [hlevel]
    split_ifs with h1 h2
    · exact ⟨fun hc => absurd hc (by decide),
        fun hc => absurd h1 (not_lt.mpr (by linarith))⟩
    · exact ⟨fun hc => absurd hc (by decide),
        fun hc => absurd h2 (not_lt.mpr hc)⟩
    · simp [not_lt.mp h2]
  · intro h
    rw [hlevel, h]
    norm_num
  · intro h
    rw [hlevel, h]
    norm_num

/-- Witness for C1 amended at ml_risk 0.5, zero address scores, zero gas
fee: the level is MEDIUM. -/
theorem risk_assessment_thresholds_witness :
    ((0:ℚ) ≤ 1/2 ∧ (1/2:ℚ) ≤ 1 ∧ (0:ℚ) ≤ 0 ∧ (0:ℚ) ≤ 1)
    ∧ (calculate_risk_assessment (1/2) 0 0 0).risk_level = "MEDIUM" := by
  have h := risk_assessment_thresholds (1/2) 0 0 0 (by norm_num)
    (by norm_num) (by norm_num) (by norm_num) (by norm_num) (by norm_num)
  refine ⟨⟨by norm_num, by norm_num, le_refl 0, by norm_num⟩, ?_⟩
  apply (h.2.2.2.2.1).mpr
  constructor <;> norm_num [overall_risk_raw, gas_risk_of, min_def]

/-- Helper: a per-row property established by the row generator holds for
every row of an iterated generation. -/
theorem gen_rows_forall {P : TxRow → Prop}
    (rowFn : NPRandomState → TxRow × NPRandomState)
    (hrow : ∀ g, P (rowFn g).1) :
    ∀ n g r, r ∈ (gen_rows rowFn n g).1 → P r := by
  intro n
  induction n with
  | zero => intro g r hr; simp [gen_rows] at hr
  | succ k ih =>
      intro g r hr
      simp only [gen_rows] at hr
      rcases List.mem_cons.mp hr with h | h
      · exact h ▸ hrow g
      · exact ih _ r h

/-- Helper: a property stable under amount updates survives the amount noise
pass. -/
theorem add_amount_noise_forall {P : TxRow → Prop} (mt : DrawStream)
    (hP : ∀ r q, P r → P { r with amount := q }) :
    ∀ rs g, (∀ r ∈ rs, P r) →
      ∀ r ∈ (add_amount_noise mt rs g).1, P r := by
  intro rs
  induction rs with
  | nil => intro g h r hr; simp [add_amount_noise] at hr
  | cons a as ih =>
      intro g h r hr
      simp only [add_amount_noise] at hr
      rcases List.mem_cons.mp hr with h1 | h1
      · exact h1 ▸ hP a _ (h a (List.mem_cons_self a as))
      · exact ih _ (fun x hx => h x (List.mem_cons_of_mem a hx)) r h1

/-- Helper: a property stable under balance updates survives the balance
noise pass. -/
theorem add_balance_noise_forall {P : TxRow → Prop} (mt : DrawStream)
    (hP : ∀ r q, P r → P { r with balance := q }) :
    ∀ rs g, (∀ r ∈ rs, P r) →
      ∀ r ∈ (add_balance_noise mt rs g).1, P r := by
  intro rs
  induction rs with
  | nil => intro g h r hr; simp [add_balance_noise] at hr
  | cons a as ih =>
      intro g h r hr
      simp only [add_balance_noise] at hr
      rcases List.mem_cons.mp hr with h1 | h1
      · exact h1 ▸ hP a _ (h a (List.mem_cons_self a as))
      · exact ih _ (fun x hx => h x (List.mem_cons_of_mem a hx)) r h1

/-- C7: every row of the generated table, normal or illicit, carries
high_gas_fee equal to 1 exactly when its sampled gas_price exceeds 50; the
flag is derived from gas_price, never sampled independently, and the noise
passes leave both fields untouched. -/
theorem generator_gas_flag_invariant (mt : DrawStream) (g : NPRandomState)
    (n : ℕ) (r : TxRow) (hr : r ∈ (generate_synthetic_data mt g n).1) :
    r.high_gas_fee = (if 50 < r.gas_price then 1 else 0)
    ∧ (r.high_gas_fee = 1 ↔ 50 < r.gas_price) := by
  have key : r.high_gas_fee = (if 50 < r.gas_price then 1 else 0) := by
    simp only [generate_synthetic_data] at hr
    refine @add_balance_noise_forall
      (fun row => row.high_gas_fee = (if 50 < row.gas_price then 1 else 0))
      mt (fun r2 q h => h) _ _ ?_ r hr
    refine @add_amount_noise_forall
      (fun row => row.high_gas_fee = (if 50 < row.gas_price then 1 else 0))
      mt (fun r2 q h => h) _ _ ?_
    intro x hx
    rcases List.mem_append.mp hx with h1 | h1
    · exact @gen_rows_forall
        (fun row => row.high_gas_fee = (if 50 < row.gas_price then 1 else 0))
        (normal_row mt) (fun g0 => rfl) _ _ x h1
    · exact @gen_rows_forall
        (fun row => row.high_gas_fee = (if 50 < row.gas_price then 1 else 0))
        (illicit_row mt) (fun g0 => rfl) _ _ x h1
  refine ⟨key, ?_⟩
  rw [key]
  split_ifs with h <;> simp [h]

/-- Helper: the defaulted head of a nonempty list is a member. -/
theorem headD_mem {α : Type} (l : List α) (d : α) (h : l ≠ []) :
    (l.head?).getD d ∈ l := by
  cases l with
  | nil => exact absurd rfl h
  | cons a as => simp

/-- Witness for C7 at the all-zero draw stream with one sample. -/
theorem generator_gas_flag_invariant_witness :
    exampleGeneratedRow ∈ (generate_synthetic_data (fun _ _ => 0) ⟨0, 0⟩ 1).1
    ∧ exampleGeneratedRow.high_gas_fee
        = (if 50 < exampleGeneratedRow.gas_price then 1 else 0) := by
  have hlen : (generate_synthetic_data (fun _ _ => 0) ⟨0, 0⟩ 1).1.length
      = 1 := rfl
  have hne : (generate_synthetic_data (fun _ _ => 0) ⟨0, 0⟩ 1).1 ≠ [] := by
    intro h
    rw [h] at hlen
    simp at hlen
  have hmem : exampleGeneratedRow
      ∈ (generate_synthetic_data (fun _ _ => 0) ⟨0, 0⟩ 1).1 :=
    headD_mem _ _ hne
  exact ⟨hmem, (generator_gas_flag_invariant _ _ _ _ hmem).1⟩

/-- C8: the generator reseeds the stream on entry, so its output is a
function of the draw stream and the sample count alone: two invocations from
arbitrary prior generator states produce identical feature tables, noise
terms included. -/
theorem generate_synthetic_data_deterministic (mt : DrawStream) (n : ℕ)
    (g1 g2 : NPRandomState) :
    generate_synthetic_data mt g1 n = generate_synthetic_data mt g2 n := rfl

end AML
